import Mathlib

/-!
Shallow embedding of the persistence and merge-semantics engine of
`settings_server.cpp` (a per-user settings and chat-history store backed by
SQLite), together with proofs about its merge, provisioning, history and
failure behaviour.

The three SQLite tables `users`, `settings` and `chat_history` are embedded
as Lean lists of rows held in a `DB` record; `AUTOINCREMENT` id assignment is
embedded by the `nextId` counter.  Each call of a C++ operation invokes the
clock `iso_now()`; all clock readings made during one operation are modelled
by the single timestamp parameter `t` of that operation (the claims under
study never depend on two clock readings inside one call differing).
-/

set_option autoImplicit false

namespace SettingsServer

/-- Row of the `users` table (settings_server.cpp, lines 93-101). -/
structure UserRow where
  user_id : String
  name : String
  email : String
  avatar_url : String
  created_at : String
  deriving DecidableEq

/-- Row of the `settings` table (settings_server.cpp, lines 104-119).
`INTEGER` columns that the server reads back with `!= 0` are embedded as
`Bool`. -/
structure SettingsRow where
  user_id : String
  theme_mode : String
  dark_mode : Bool
  notifications_enabled : Bool
  chat_notifications : Bool
  update_notifications : Bool
  reminder_notifications : Bool
  language : String
  biometric_lock : Bool
  app_version : String
  updated_at : String
  deriving DecidableEq

/-- Row of the `chat_history` table (settings_server.cpp, lines 122-131). -/
structure ChatRow where
  id : Nat
  user_id : String
  role : String
  message : String
  created_at : String
  deriving DecidableEq

/-- The whole SQLite database.  `nextId` models the `AUTOINCREMENT` counter
of `chat_history.id`: every id already in `chat` is smaller than `nextId` in
any state the server can reach. -/
structure DB where
  users : List UserRow
  settings : List SettingsRow
  chat : List ChatRow
  nextId : Nat
  deriving DecidableEq

/-- The JSON object passed to `upsert_settings` (settings_server.cpp, line
231): each recognized key is either absent (`none`) or present with a value.
This mirrors `j.contains(key)` / `j[key]` on the decoded JSON. -/
structure SettingsUpdate where
  name : Option String
  email : Option String
  avatar_url : Option String
  theme_mode : Option String
  dark_mode : Option Bool
  notifications_enabled : Option Bool
  chat_notifications : Option Bool
  update_notifications : Option Bool
  reminder_notifications : Option Bool
  language : Option String
  biometric_lock : Option Bool
  app_version : Option String
  deriving DecidableEq

/-- The update with every recognized key absent. -/
def emptyUpdate : SettingsUpdate :=
  ⟨none, none, none, none, none, none, none, none, none, none, none, none⟩

/-- One element of a `chat_history` JSON array given to the import endpoint
(settings_server.cpp, lines 408-411): `m.value(key, default)` semantics. -/
structure ChatImportMsg where
  role : Option String
  message : Option String
  created_at : Option String
  deriving DecidableEq

/-- Payload of `import_user_data` (settings_server.cpp, lines 390-393):
`payload.contains("settings")` / `payload.contains("chat_history")`. -/
structure ImportPayload where
  settings : Option SettingsUpdate
  chat_history : Option (List ChatImportMsg)
  deriving DecidableEq

/-- One element of the exported `chat_history` array (settings_server.cpp,
lines 366-372): the `role`, `message`, `created_at` columns. -/
structure ExportedMsg where
  role : String
  message : String
  created_at : String
  deriving DecidableEq

/-- First `users` row of a given `user_id` (the SQL `WHERE user_id = ?`
lookup on the primary key). -/
def findUser (db : DB) (uid : String) : Option UserRow :=
  db.users.find? (fun u => u.user_id == uid)

/-- First `settings` row of a given `user_id`. -/
def findSettings (db : DB) (uid : String) : Option SettingsRow :=
  db.settings.find? (fun s => s.user_id == uid)

/-- Whether a `users` row with this primary key exists. -/
def hasUserRow (db : DB) (uid : String) : Bool :=
  (findUser db uid).isSome

/-- Whether a `settings` row with this primary key exists. -/
def hasSettingsRow (db : DB) (uid : String) : Bool :=
  (findSettings db uid).isSome

/-- The placeholder `users` row inserted by provisioning (settings_server.cpp,
lines 151-158). -/
def defaultUserRow (uid t : String) : UserRow :=
  ⟨uid, "User Name", "user@example.com", "", t⟩

/-- The default `settings` row inserted by provisioning (settings_server.cpp,
lines 166-176). -/
def defaultSettingsRow (uid t : String) : SettingsRow :=
  ⟨uid, "System", false, true, true, true, false, "English", false, "1.0.0", t⟩

/-- First statement of `ensure_user_exists` (settings_server.cpp, lines
149-162): `INSERT OR IGNORE INTO users` — inserts the placeholder row exactly
when no row with that primary key exists. -/
def ensureUserStep (db : DB) (uid t : String) : DB :=
  if hasUserRow db uid then db
  else { db with users := db.users ++ [defaultUserRow uid t] }

/-- Second statement of `ensure_user_exists` (settings_server.cpp, lines
164-180): `INSERT OR IGNORE INTO settings` with the documented defaults. -/
def ensureSettingsStep (db : DB) (uid t : String) : DB :=
  if hasSettingsRow db uid then db
  else { db with settings := db.settings ++ [defaultSettingsRow uid t] }

/-- `ensure_user_exists` (settings_server.cpp, lines 141-184): the two
`INSERT OR IGNORE` statements run in order in one transaction. -/
def ensure_user_exists (db : DB) (uid : String) (t : String) : DB :=
  ensureSettingsStep (ensureUserStep db uid t) uid t

/-- Value bound for a text settings column (settings_server.cpp, lines 277,
283, 285 and 292, 300, 302): the JSON value defaulted to `""` when the key is
absent, then bound as SQL NULL whenever the resulting string is empty.  An
explicitly supplied empty string therefore binds NULL exactly like an absent
key. -/
def boundText (o : Option String) : Option String :=
  let v := o.getD ""
  if v = "" then none else some v

/-- Value bound for a boolean settings column (settings_server.cpp, lines
278-284 and 295-301): the JSON boolean mapped to the int 1 or 0, `-1` when
the key is absent; `-1` binds SQL NULL, any other value binds the int, which
the server later reads back with `!= 0`. -/
def boundBool (o : Option Bool) : Option Bool :=
  let v : Int := match o with
    | some b => if b then 1 else 0
    | none => -1
  if v = -1 then none else some (decide (v ≠ 0))

/-- Effect of the `ON CONFLICT ... DO UPDATE` arm of the settings statement
on the existing row (settings_server.cpp, lines 263-273): each column becomes
`COALESCE(excluded.column, settings.column)` where `excluded.column` is the
bound value; `excluded.updated_at` is always bound to the clock value. -/
def applySettingsRow (j : SettingsUpdate) (t : String) (s : SettingsRow) : SettingsRow :=
  { s with
    theme_mode := (boundText j.theme_mode).getD s.theme_mode
    dark_mode := (boundBool j.dark_mode).getD s.dark_mode
    notifications_enabled := (boundBool j.notifications_enabled).getD s.notifications_enabled
    chat_notifications := (boundBool j.chat_notifications).getD s.chat_notifications
    update_notifications := (boundBool j.update_notifications).getD s.update_notifications
    reminder_notifications := (boundBool j.reminder_notifications).getD s.reminder_notifications
    language := (boundText j.language).getD s.language
    biometric_lock := (boundBool j.biometric_lock).getD s.biometric_lock
    app_version := (boundText j.app_version).getD s.app_version
    updated_at := (some t).getD s.updated_at }

/-- Effect of the profile `UPDATE users SET name = COALESCE(?, name), ...`
statement on a matching row (settings_server.cpp, lines 241-251): a present
key binds its string (even the empty string), an absent key binds NULL and
`COALESCE` keeps the stored value. -/
def applyProfileRow (j : SettingsUpdate) (u : UserRow) : UserRow :=
  { u with
    name := j.name.getD u.name
    email := j.email.getD u.email
    avatar_url := j.avatar_url.getD u.avatar_url }

/-- `upsert_settings` (settings_server.cpp, lines 231-312).  It first runs
`ensure_user_exists`, then, when a profile key is present, updates the
matching `users` rows, then executes the settings upsert statement.  Because
`ensure_user_exists` has just inserted the settings row when it was missing,
the `INSERT` arm of `ON CONFLICT` is unreachable and the statement always
takes the `DO UPDATE` arm on the rows whose key matches. -/
def upsert_settings (db : DB) (uid : String) (j : SettingsUpdate) (t : String) : DB :=
  let db1 := ensure_user_exists db uid t
  let db2 :=
    if j.name.isSome || j.email.isSome || j.avatar_url.isSome then
      { db1 with users := db1.users.map (fun u => if u.user_id == uid then applyProfileRow j u else u) }
    else db1
  { db2 with settings := db2.settings.map (fun s => if s.user_id == uid then applySettingsRow j t s else s) }

/-- `append_chat_message` (settings_server.cpp, lines 315-333): provision,
then one `INSERT` into `chat_history` with the clock timestamp; the store
assigns the next id. -/
def append_chat_message (db : DB) (uid role message t : String) : DB :=
  let db1 := ensure_user_exists db uid t
  { db1 with
    chat := db1.chat ++ [⟨db1.nextId, uid, role, message, t⟩]
    nextId := db1.nextId + 1 }

/-- `clear_chat_history` (settings_server.cpp, lines 336-349): a single
`DELETE FROM chat_history WHERE user_id = ?`; no provisioning call. -/
def clear_chat_history (db : DB) (uid : String) : DB :=
  { db with chat := db.chat.filter (fun c => !(c.user_id == uid)) }

/-- Row built for one imported chat message (settings_server.cpp, lines
408-415): `role` defaults to `"user"`, `message` to `""`, `created_at` to the
clock value; the store assigns the id. -/
def importedChatRow (uid t : String) (idv : Nat) (m : ChatImportMsg) : ChatRow :=
  ⟨idv, uid, m.role.getD "user", m.message.getD "", m.created_at.getD t⟩

/-- The insert loop of the import (settings_server.cpp, lines 405-418),
executed left to right over the payload array. -/
def insertImportedMsgs (uid t : String) : DB → List ChatImportMsg → DB
  | db, [] => db
  | db, m :: ms =>
      insertImportedMsgs uid t
        { db with
          chat := db.chat ++ [importedChatRow uid t db.nextId m]
          nextId := db.nextId + 1 } ms

/-- The settings step of the import (settings_server.cpp, lines 390-392):
when the payload carries a `settings` object, the nested `upsert_settings`
call runs.  That nested call opens its own database connection and performs
its own `BEGIN`/`COMMIT` (lines 236-237 and 309), so its writes commit
separately from the transaction the import opened. -/
def import_settings_unit (uid : String) (payload : ImportPayload) (t : String) (db : DB) : DB :=
  match payload.settings with
  | none => db
  | some j => upsert_settings db uid j t

/-- The chat step of the import (settings_server.cpp, lines 393-421): when
the payload carries `chat_history`, optionally wipe the user's rows
(`replace`), then insert every payload message in order.  These writes run on
the import's own connection inside its `BEGIN`/`COMMIT` (lines 389 and 423)
and hence commit as one unit. -/
def import_chat_unit (uid : String) (payload : ImportPayload) (replace : Bool) (t : String) (db : DB) : DB :=
  match payload.chat_history with
  | none => db
  | some msgs =>
      let db1 := if replace then { db with chat := db.chat.filter (fun c => !(c.user_id == uid)) } else db
      insertImportedMsgs uid t db1 msgs

/-- `import_user_data` (settings_server.cpp, lines 383-426) decomposed into
its separately committed transactional units, in execution order:
`ensure_user_exists` commits on its own connection (lines 147 and 182), the
nested `upsert_settings` commits on its own connection (lines 237 and 309),
and the chat wipe plus inserts commit with the import's own transaction
(lines 389 and 423). -/
def import_txn_units (uid : String) (payload : ImportPayload) (replace : Bool) (t : String) : List (DB → DB) :=
  [fun db => ensure_user_exists db uid t,
   import_settings_unit uid payload t,
   import_chat_unit uid payload replace t]

/-- `import_user_data` run to completion: all three units applied in order. -/
def import_user_data (db : DB) (uid : String) (payload : ImportPayload) (replace : Bool) (t : String) : DB :=
  (import_txn_units uid payload replace t).foldl (fun d f => f d) db

/-- State after a storage failure interrupts `import_user_data` once `k` of
its transactional units have committed: the committed units persist, the
interrupted unit rolls back (SQLite rolls an open transaction back). -/
def import_user_data_crash (db : DB) (uid : String) (payload : ImportPayload) (replace : Bool) (t : String) (k : Nat) : DB :=
  ((import_txn_units uid payload replace t).take k).foldl (fun d f => f d) db

/-- Insert a chat row into a list kept in ascending id order. -/
def insertById (c : ChatRow) : List ChatRow → List ChatRow
  | [] => [c]
  | d :: ds => if c.id ≤ d.id then c :: d :: ds else d :: insertById c ds

/-- Sort chat rows by id, embedding the `ORDER BY id ASC` of the export query
(settings_server.cpp, line 361). -/
def sortById : List ChatRow → List ChatRow
  | [] => []
  | c :: cs => insertById c (sortById cs)

/-- The `chat_history` array produced by `export_user_data`
(settings_server.cpp, lines 357-374): the user's rows in ascending id order,
projected to `role`, `message`, `created_at`. -/
def export_chat_history (db : DB) (uid : String) : List ExportedMsg :=
  (sortById (db.chat.filter (fun c => c.user_id == uid))).map
    (fun c => ⟨c.role, c.message, c.created_at⟩)

/-- The `POST /theme` handler core (settings_server.cpp, lines 539-551): it
builds a payload with `theme_mode` set to the given mode and `dark_mode` set
to whether the mode equals `"Dark"`, then calls `upsert_settings`. -/
def set_theme (db : DB) (uid mode t : String) : DB :=
  upsert_settings db uid
    { emptyUpdate with theme_mode := some mode, dark_mode := some (mode == "Dark") } t

/-- Reachability invariant of the chat table: rows are stored in ascending id
order and every id is below the `AUTOINCREMENT` counter. -/
def DB.chatWF (db : DB) : Prop :=
  db.chat.Pairwise (fun a b => a.id < b.id) ∧ ∀ c ∈ db.chat, c.id < db.nextId

/-- Failure behaviour of the underlying store while one write operation runs.
`openFails` models `sqlite3_open` returning non-`SQLITE_OK`; `stmtFails`
models every `sqlite3_prepare_v2` (or bind) of the operation failing, in
which case the guarded statement body is skipped (settings_server.cpp, e.g.
lines 288-306: `if (sqlite3_prepare_v2(...) == SQLITE_OK) { ... }` with no
else branch and all bind/step return codes discarded). -/
structure StorageEnv where
  openFails : Bool
  stmtFails : Bool
  deriving DecidableEq

/-- `upsert_settings` under an injected storage failure.  An open failure
returns `false` before any write (line 236; the inner `ensure_user_exists`
open, line 144, fails the same way and returns having written nothing).  A
prepare failure skips every statement body yet the function still reaches
`return true` (line 311). -/
def upsert_settings_env (env : StorageEnv) (db : DB) (uid : String) (j : SettingsUpdate) (t : String) : DB × Bool :=
  if env.openFails then (db, false)
  else if env.stmtFails then (db, true)
  else (upsert_settings db uid j t, true)

/-- `append_chat_message` under an injected storage failure
(settings_server.cpp, lines 315-332: open failure returns `false`, a prepare
failure skips the insert and the function returns `true`). -/
def append_chat_message_env (env : StorageEnv) (db : DB) (uid role message t : String) : DB × Bool :=
  if env.openFails then (db, false)
  else if env.stmtFails then (db, true)
  else (append_chat_message db uid role message t, true)

/-- `clear_chat_history` under an injected storage failure
(settings_server.cpp, lines 336-348). -/
def clear_chat_history_env (env : StorageEnv) (db : DB) (uid : String) : DB × Bool :=
  if env.openFails then (db, false)
  else if env.stmtFails then (db, true)
  else (clear_chat_history db uid, true)

/-- `import_user_data` under an injected storage failure
(settings_server.cpp, lines 383-425: open failure returns `false`, prepare
failures skip every statement and the function returns `true`). -/
def import_user_data_env (env : StorageEnv) (db : DB) (uid : String) (payload : ImportPayload) (replace : Bool) (t : String) : DB × Bool :=
  if env.openFails then (db, false)
  else if env.stmtFails then (db, true)
  else (import_user_data db uid payload replace t, true)

/-- A provisioned user row used in concrete evaluations. -/
def uRow : UserRow := defaultUserRow "u" "t0"

/-- A settings row whose language was changed to French. -/
def sFrench : SettingsRow :=
  ⟨"u", "System", false, true, true, true, false, "French", false, "1.0.0", "t0"⟩

/-- Database holding the user `"u"` with `language = "French"` and no chat. -/
def dbFrench : DB := ⟨[uRow], [sFrench], [], 1⟩

/-- Database holding the user `"u"` with the default settings and no chat. -/
def dbEnglish : DB := ⟨[uRow], [defaultSettingsRow "u" "t0"], [], 1⟩

/-- Database holding the user `"u"` with two chat messages A and B. -/
def dbChat : DB :=
  ⟨[uRow], [defaultSettingsRow "u" "t0"],
   [⟨1, "u", "user", "A", "ta"⟩, ⟨2, "u", "bot", "B", "tb"⟩], 3⟩

/-- The empty database. -/
def dbEmpty : DB := ⟨[], [], [], 1⟩

/-- An imported chat message C. -/
def msgC : ChatImportMsg := ⟨some "user", some "C", some "tc"⟩

/-- Import payload carrying both a settings merge (language French) and one
chat message. -/
def payloadFC : ImportPayload :=
  ⟨some { emptyUpdate with language := some "French" }, some [msgC]⟩

/-- The rows the import insert loop appends for a payload array, starting at
a given value of the id counter. -/
def importedRows (uid t : String) : Nat → List ChatImportMsg → List ChatRow
  | _, [] => []
  | n, m :: ms => importedChatRow uid t n m :: importedRows uid t (n + 1) ms

/-- The exported form of an imported payload array: defaults applied,
projected to the exported columns. -/
def importedExports (t : String) (msgs : List ChatImportMsg) : List ExportedMsg :=
  msgs.map (fun m => ⟨m.role.getD "user", m.message.getD "", m.created_at.getD t⟩)

/-- Repeated provisioning: `ensure_user_exists` run once per timestamp in
the list, left to right. -/
def ensureN (db : DB) (uid : String) (ts : List String) : DB :=
  ts.foldl (fun d t2 => ensure_user_exists d uid t2) db

/-! ## Helper lemmas -/

/-- A keyed update of every matching element commutes with the keyed lookup:
`find?` of the updated list is `find?` of the original list with the update
applied, provided the update preserves the key. -/
theorem find?_map_upd {α : Type} (key : α → String) (uid : String) (f : α → α)
    (hf : ∀ a, key (f a) = key a) (l : List α) :
    (l.map (fun a => if key a == uid then f a else a)).find? (fun a => key a == uid)
      = (l.find? (fun a => key a == uid)).map f := by
  induction l with
  | nil => rfl
  | cons a l ih =>
    simp only [List.map_cons]
    by_cases h : (key a == uid) = true
    · have h2 : (key (f a) == uid) = true := by rw [hf]; exact h
      rw [if_pos h, @List.find?_cons_of_pos _ (fun x => key x == uid) (f a) _ h2,
        @List.find?_cons_of_pos _ (fun x => key x == uid) a _ h]
      rfl
    · rw [if_neg h, @List.find?_cons_of_neg _ (fun x => key x == uid) a _ h,
        @List.find?_cons_of_neg _ (fun x => key x == uid) a _ h, ih]

/-- The settings statement of provisioning leaves the users table alone. -/
theorem ensureSettingsStep_users (db : DB) (uid uid2 t : String) :
    findUser (ensureSettingsStep db uid2 t) uid = findUser db uid := by
  unfold ensureSettingsStep; split <;> rfl

/-- The users statement of provisioning leaves the settings table alone. -/
theorem ensureUserStep_settings (db : DB) (uid uid2 t : String) :
    findSettings (ensureUserStep db uid2 t) uid = findSettings db uid := by
  unfold ensureUserStep; split <;> rfl

/-- The users statement of provisioning leaves the chat table alone. -/
theorem ensureUserStep_chat (db : DB) (uid t : String) :
    (ensureUserStep db uid t).chat = db.chat := by
  unfold ensureUserStep; split <;> rfl

/-- The settings statement of provisioning leaves the chat table alone. -/
theorem ensureSettingsStep_chat (db : DB) (uid t : String) :
    (ensureSettingsStep db uid t).chat = db.chat := by
  unfold ensureSettingsStep; split <;> rfl

/-- The users statement of provisioning leaves the id counter alone. -/
theorem ensureUserStep_nextId (db : DB) (uid t : String) :
    (ensureUserStep db uid t).nextId = db.nextId := by
  unfold ensureUserStep; split <;> rfl

/-- The settings statement of provisioning leaves the id counter alone. -/
theorem ensureSettingsStep_nextId (db : DB) (uid t : String) :
    (ensureSettingsStep db uid t).nextId = db.nextId := by
  unfold ensureSettingsStep; split <;> rfl

/-- Provisioning leaves the chat table alone. -/
theorem ensure_chat (db : DB) (uid t : String) :
    (ensure_user_exists db uid t).chat = db.chat := by
  unfold ensure_user_exists
  rw [ensureSettingsStep_chat, ensureUserStep_chat]

/-- Provisioning leaves the id counter alone. -/
theorem ensure_nextId (db : DB) (uid t : String) :
    (ensure_user_exists db uid t).nextId = db.nextId := by
  unfold ensure_user_exists
  rw [ensureSettingsStep_nextId, ensureUserStep_nextId]

/-- After the users statement of provisioning, the user row is the stored row
when one existed and the placeholder row otherwise. -/
theorem findUser_ensureUserStep (db : DB) (uid t : String) :
    findUser (ensureUserStep db uid t) uid
      = some ((findUser db uid).getD (defaultUserRow uid t)) := by
  unfold ensureUserStep
  by_cases h : hasUserRow db uid = true
  · rw [if_pos h]
    obtain ⟨u, hu⟩ := Option.isSome_iff_exists.mp h
    rw [hu]; rfl
  · rw [if_neg h]
    have hnone : findUser db uid = none := by
      unfold hasUserRow at h
      exact Option.not_isSome_iff_eq_none.mp (by simpa using h)
    unfold findUser at hnone ⊢
    show (db.users ++ [defaultUserRow uid t]).find? (fun u => u.user_id == uid) = _
    rw [List.find?_append, hnone]
    simp [defaultUserRow]

/-- After the settings statement of provisioning, the settings row is the
stored row when one existed and the default row otherwise. -/
theorem findSettings_ensureSettingsStep (db : DB) (uid t : String) :
    findSettings (ensureSettingsStep db uid t) uid
      = some ((findSettings db uid).getD (defaultSettingsRow uid t)) := by
  unfold ensureSettingsStep
  by_cases h : hasSettingsRow db uid = true
  · rw [if_pos h]
    obtain ⟨s, hs⟩ := Option.isSome_iff_exists.mp h
    rw [hs]; rfl
  · rw [if_neg h]
    have hnone : findSettings db uid = none := by
      unfold hasSettingsRow at h
      exact Option.not_isSome_iff_eq_none.mp (by simpa using h)
    unfold findSettings at hnone ⊢
    show (db.settings ++ [defaultSettingsRow uid t]).find? (fun s => s.user_id == uid) = _
    rw [List.find?_append, hnone]
    simp [defaultSettingsRow]

/-- The user row after provisioning: the stored row when one existed, the
placeholder row otherwise. -/
theorem findUser_ensure (db : DB) (uid t : String) :
    findUser (ensure_user_exists db uid t) uid
      = some ((findUser db uid).getD (defaultUserRow uid t)) := by
  unfold ensure_user_exists
  rw [ensureSettingsStep_users, findUser_ensureUserStep]

/-- The settings row after provisioning: the stored row when one existed, the
default row otherwise. -/
theorem findSettings_ensure (db : DB) (uid t : String) :
    findSettings (ensure_user_exists db uid t) uid
      = some ((findSettings db uid).getD (defaultSettingsRow uid t)) := by
  unfold ensure_user_exists
  rw [findSettings_ensureSettingsStep, ensureUserStep_settings]

/-- Provisioning an already provisioned user changes nothing, whatever
timestamp the later call reads from the clock. -/
theorem ensure_ensure (db : DB) (uid t t2 : String) :
    ensure_user_exists (ensure_user_exists db uid t) uid t2
      = ensure_user_exists db uid t := by
  have hu : hasUserRow (ensure_user_exists db uid t) uid = true := by
    unfold hasUserRow; rw [findUser_ensure]; rfl
  have hs : hasSettingsRow (ensure_user_exists db uid t) uid = true := by
    unfold hasSettingsRow; rw [findSettings_ensure]; rfl
  have h1 : ensureUserStep (ensure_user_exists db uid t) uid t2
      = ensure_user_exists db uid t := by
    unfold ensureUserStep; rw [if_pos hu]
  have h2 : ensureSettingsStep (ensure_user_exists db uid t) uid t2
      = ensure_user_exists db uid t := by
    unfold ensureSettingsStep; rw [if_pos hs]
  calc ensure_user_exists (ensure_user_exists db uid t) uid t2
      = ensureSettingsStep (ensureUserStep (ensure_user_exists db uid t) uid t2) uid t2 := rfl
    _ = ensure_user_exists db uid t := by rw [h1, h2]

/-- If both rows of the user already exist, provisioning is the identity. -/
theorem ensure_of_exists (db : DB) (uid t : String)
    (hu : hasUserRow db uid = true) (hs : hasSettingsRow db uid = true) :
    ensure_user_exists db uid t = db := by
  have h1 : ensureUserStep db uid t = db := by
    unfold ensureUserStep; rw [if_pos hu]
  have h2 : ensureSettingsStep db uid t = db := by
    unfold ensureSettingsStep; rw [if_pos hs]
  unfold ensure_user_exists
  rw [h1, h2]

/-- The settings table after `upsert_settings`: every row of the user mapped
through the `DO UPDATE` arm, the rest untouched. -/
theorem upsert_settings_table (db : DB) (uid : String) (j : SettingsUpdate) (t : String) :
    (upsert_settings db uid j t).settings
      = (ensure_user_exists db uid t).settings.map
          (fun s => if s.user_id == uid then applySettingsRow j t s else s) := by
  unfold upsert_settings
  split <;> rfl

/-- The users table after `upsert_settings`: mapped through the profile
update when a profile key is present, untouched otherwise. -/
theorem upsert_users_table (db : DB) (uid : String) (j : SettingsUpdate) (t : String) :
    (upsert_settings db uid j t).users
      = if j.name.isSome || j.email.isSome || j.avatar_url.isSome then
          (ensure_user_exists db uid t).users.map
            (fun u => if u.user_id == uid then applyProfileRow j u else u)
        else (ensure_user_exists db uid t).users := by
  unfold upsert_settings
  split <;> simp_all

/-- The settings row of the user after `upsert_settings`: the stored row
(default row when the user was fresh) with the partial update merged in. -/
theorem findSettings_upsert (db : DB) (uid : String) (j : SettingsUpdate) (t : String) :
    findSettings (upsert_settings db uid j t) uid
      = some (applySettingsRow j t
          ((findSettings db uid).getD (defaultSettingsRow uid t))) := by
  unfold findSettings
  rw [upsert_settings_table,
    find?_map_upd (fun s : SettingsRow => s.user_id) uid (applySettingsRow j t) (fun s => rfl)]
  have h := findSettings_ensure db uid t
  unfold findSettings at h
  rw [h]
  rfl

/-- The user row after `upsert_settings`: the stored row (placeholder row
when the user was fresh), with the profile update applied when a profile key
is present. -/
theorem findUser_upsert (db : DB) (uid : String) (j : SettingsUpdate) (t : String) :
    findUser (upsert_settings db uid j t) uid
      = some (if j.name.isSome || j.email.isSome || j.avatar_url.isSome then
            applyProfileRow j ((findUser db uid).getD (defaultUserRow uid t))
          else (findUser db uid).getD (defaultUserRow uid t)) := by
  have h := findUser_ensure db uid t
  unfold findUser at h ⊢
  rw [upsert_users_table]
  by_cases hg : (j.name.isSome || j.email.isSome || j.avatar_url.isSome) = true
  · rw [if_pos hg, if_pos hg,
      find?_map_upd (fun u : UserRow => u.user_id) uid (applyProfileRow j) (fun u => rfl), h]
    rfl
  · rw [if_neg hg, if_neg hg, h]

/-- `upsert_settings` leaves the chat table alone. -/
theorem upsert_chat (db : DB) (uid : String) (j : SettingsUpdate) (t : String) :
    (upsert_settings db uid j t).chat = db.chat := by
  have h : (upsert_settings db uid j t).chat = (ensure_user_exists db uid t).chat := by
    unfold upsert_settings; split <;> rfl
  rw [h, ensure_chat]

/-- `upsert_settings` leaves the id counter alone. -/
theorem upsert_nextId (db : DB) (uid : String) (j : SettingsUpdate) (t : String) :
    (upsert_settings db uid j t).nextId = db.nextId := by
  have h : (upsert_settings db uid j t).nextId = (ensure_user_exists db uid t).nextId := by
    unfold upsert_settings; split <;> rfl
  rw [h, ensure_nextId]

/-- An absent text key binds NULL. -/
theorem boundText_none : boundText none = none := rfl

/-- An explicitly supplied empty string also binds NULL: the sentinel cannot
tell it apart from an absent key. -/
theorem boundText_empty : boundText (some "") = none := rfl

/-- A present non-empty text key binds its value. -/
theorem boundText_some (v : String) (h : v ≠ "") : boundText (some v) = some v := by
  unfold boundText
  simp [h]

/-- An absent boolean key binds NULL (the `-1` sentinel). -/
theorem boundBool_none : boundBool none = none := rfl

/-- A present boolean key binds its value: `false` becomes the int `0`, which
is distinct from the `-1` sentinel, and reads back as `false`. -/
theorem boundBool_some (b : Bool) : boundBool (some b) = some b := by
  cases b <;> rfl

/-- Both rows of the user exist after `upsert_settings`. -/
theorem hasSettingsRow_upsert (db : DB) (uid : String) (j : SettingsUpdate) (t : String) :
    hasSettingsRow (upsert_settings db uid j t) uid = true := by
  unfold hasSettingsRow; rw [findSettings_upsert]; rfl

/-- The users row of the user exists after `upsert_settings`. -/
theorem hasUserRow_upsert (db : DB) (uid : String) (j : SettingsUpdate) (t : String) :
    hasUserRow (upsert_settings db uid j t) uid = true := by
  unfold hasUserRow; rw [findUser_upsert]; rfl

/-- The chat table after `append_chat_message`: the new row at the end with
the next id. -/
theorem append_chat_table (db : DB) (uid role message t : String) :
    (append_chat_message db uid role message t).chat
      = db.chat ++ [⟨db.nextId, uid, role, message, t⟩] := by
  show (ensure_user_exists db uid t).chat
      ++ [⟨(ensure_user_exists db uid t).nextId, uid, role, message, t⟩] = _
  rw [ensure_chat, ensure_nextId]

/-- `append_chat_message` changes the users table exactly as provisioning
does. -/
theorem findUser_append_chat (db : DB) (uid role message t uid2 : String) :
    findUser (append_chat_message db uid role message t) uid2
      = findUser (ensure_user_exists db uid t) uid2 := rfl

/-- `append_chat_message` changes the settings table exactly as provisioning
does. -/
theorem findSettings_append_chat (db : DB) (uid role message t uid2 : String) :
    findSettings (append_chat_message db uid role message t) uid2
      = findSettings (ensure_user_exists db uid t) uid2 := rfl

/-- `clear_chat_history` leaves the users table alone. -/
theorem clear_users (db : DB) (uid : String) :
    (clear_chat_history db uid).users = db.users := rfl

/-- `clear_chat_history` leaves the settings table alone. -/
theorem clear_settings (db : DB) (uid : String) :
    (clear_chat_history db uid).settings = db.settings := rfl

/-- The import insert loop appends exactly the imported rows, with ids from
the counter onward, and touches neither the users nor the settings table. -/
theorem insertImportedMsgs_spec (uid t : String) (msgs : List ChatImportMsg) :
    ∀ db : DB,
      (insertImportedMsgs uid t db msgs).chat = db.chat ++ importedRows uid t db.nextId msgs ∧
      (insertImportedMsgs uid t db msgs).users = db.users ∧
      (insertImportedMsgs uid t db msgs).settings = db.settings := by
  induction msgs with
  | nil => intro db; simp [insertImportedMsgs, importedRows]
  | cons m ms ih =>
    intro db
    obtain ⟨h1, h2, h3⟩ := ih
      { db with chat := db.chat ++ [importedChatRow uid t db.nextId m], nextId := db.nextId + 1 }
    unfold insertImportedMsgs
    refine ⟨?_, ?_, ?_⟩
    · rw [h1]; simp [importedRows]
    · rw [h2]
    · rw [h3]

/-- Every imported row carries the importing user's id. -/
theorem importedRows_userId (uid t : String) :
    ∀ (msgs : List ChatImportMsg) (n : Nat), ∀ c ∈ importedRows uid t n msgs, c.user_id = uid := by
  intro msgs
  induction msgs with
  | nil => intro n c hc; simp [importedRows] at hc
  | cons m ms ih =>
    intro n c hc
    rcases List.mem_cons.mp hc with h | h
    · rw [h]; rfl
    · exact ih (n + 1) c h

/-- Imported rows have ids no smaller than the counter they started from. -/
theorem importedRows_id_ge (uid t : String) :
    ∀ (msgs : List ChatImportMsg) (n : Nat), ∀ c ∈ importedRows uid t n msgs, n ≤ c.id := by
  intro msgs
  induction msgs with
  | nil => intro n c hc; simp [importedRows] at hc
  | cons m ms ih =>
    intro n c hc
    rcases List.mem_cons.mp hc with h | h
    · rw [h]; exact Nat.le_refl n
    · exact Nat.le_of_succ_le (ih (n + 1) c h)

/-- Imported rows are produced in strictly increasing id order. -/
theorem importedRows_pairwise (uid t : String) :
    ∀ (msgs : List ChatImportMsg) (n : Nat),
      (importedRows uid t n msgs).Pairwise (fun a b => a.id < b.id) := by
  intro msgs
  induction msgs with
  | nil => intro n; exact List.Pairwise.nil
  | cons m ms ih =>
    intro n
    rw [importedRows]
    refine List.pairwise_cons.mpr ⟨?_, ih (n + 1)⟩
    intro c hc
    exact Nat.lt_of_lt_of_le (Nat.lt_succ_self n) (importedRows_id_ge uid t ms (n + 1) c hc)

/-- Filtering imported rows by the importing user keeps all of them. -/
theorem importedRows_filter (uid t : String) (msgs : List ChatImportMsg) (n : Nat) :
    (importedRows uid t n msgs).filter (fun c => c.user_id == uid)
      = importedRows uid t n msgs := by
  apply List.filter_eq_self.mpr
  intro c hc
  simp [importedRows_userId uid t msgs n c hc]

/-- Projecting imported rows to the exported columns recovers the payload
with defaults applied. -/
theorem importedRows_project (uid t : String) :
    ∀ (msgs : List ChatImportMsg) (n : Nat),
      (importedRows uid t n msgs).map
          (fun c => (⟨c.role, c.message, c.created_at⟩ : ExportedMsg))
        = importedExports t msgs := by
  intro msgs
  induction msgs with
  | nil => intro n; rfl
  | cons m ms ih =>
    intro n
    rw [importedRows]
    simp only [List.map_cons]
    rw [ih (n + 1)]
    rfl

/-- Inserting below every element of a sorted list puts the element at the
head. -/
theorem insertById_of_lt (c : ChatRow) (cs : List ChatRow)
    (h : ∀ d ∈ cs, c.id < d.id) : insertById c cs = c :: cs := by
  cases cs with
  | nil => rfl
  | cons d ds =>
    unfold insertById
    rw [if_pos (Nat.le_of_lt (h d (List.mem_cons_self d ds)))]

/-- Sorting a list already in strictly increasing id order returns it
unchanged. -/
theorem sortById_sorted (l : List ChatRow)
    (h : l.Pairwise (fun a b => a.id < b.id)) : sortById l = l := by
  induction l with
  | nil => rfl
  | cons c cs ih =>
    obtain ⟨hc, hcs⟩ := List.pairwise_cons.mp h
    rw [sortById, ih hcs, insertById_of_lt c cs hc]

/-- The settings unit of the import leaves the chat table alone. -/
theorem import_settings_unit_chat (uid : String) (p : ImportPayload) (t : String) (db : DB) :
    (import_settings_unit uid p t db).chat = db.chat := by
  unfold import_settings_unit
  cases p.settings with
  | none => rfl
  | some j => exact upsert_chat db uid j t

/-- The settings unit of the import leaves the id counter alone. -/
theorem import_settings_unit_nextId (uid : String) (p : ImportPayload) (t : String) (db : DB) :
    (import_settings_unit uid p t db).nextId = db.nextId := by
  unfold import_settings_unit
  cases p.settings with
  | none => rfl
  | some j => exact upsert_nextId db uid j t

/-- The chat unit of the import leaves the users table alone. -/
theorem import_chat_unit_users (uid : String) (p : ImportPayload) (r : Bool) (t : String) (db : DB) :
    (import_chat_unit uid p r t db).users = db.users := by
  unfold import_chat_unit
  cases p.chat_history with
  | none => rfl
  | some msgs =>
    cases r with
    | false =>
      simpa using (insertImportedMsgs_spec uid t msgs db).2.1
    | true =>
      simpa using (insertImportedMsgs_spec uid t msgs
        { db with chat := db.chat.filter (fun c => !(c.user_id == uid)) }).2.1

/-- The chat unit of the import leaves the settings table alone. -/
theorem import_chat_unit_settings (uid : String) (p : ImportPayload) (r : Bool) (t : String) (db : DB) :
    (import_chat_unit uid p r t db).settings = db.settings := by
  unfold import_chat_unit
  cases p.chat_history with
  | none => rfl
  | some msgs =>
    cases r with
    | false =>
      simpa using (insertImportedMsgs_spec uid t msgs db).2.2
    | true =>
      simpa using (insertImportedMsgs_spec uid t msgs
        { db with chat := db.chat.filter (fun c => !(c.user_id == uid)) }).2.2

/-- `import_user_data` is the three transactional units applied in order. -/
theorem import_user_data_eq (db : DB) (uid : String) (p : ImportPayload) (r : Bool) (t : String) :
    import_user_data db uid p r t
      = import_chat_unit uid p r t (import_settings_unit uid p t (ensure_user_exists db uid t)) := rfl

/-- Both rows of the user exist after `import_user_data`. -/
theorem hasRows_import (db : DB) (uid : String) (p : ImportPayload) (r : Bool) (t : String) :
    hasUserRow (import_user_data db uid p r t) uid = true ∧
    hasSettingsRow (import_user_data db uid p r t) uid = true := by
  rw [import_user_data_eq]
  have hu2 : ∀ d : DB, hasUserRow (import_settings_unit uid p t d) uid = hasUserRow d uid ∨
      hasUserRow (import_settings_unit uid p t d) uid = true := by
    intro d
    unfold import_settings_unit
    cases p.settings with
    | none => exact Or.inl rfl
    | some j => exact Or.inr (hasUserRow_upsert d uid j t)
  have hs2 : ∀ d : DB, hasSettingsRow (import_settings_unit uid p t d) uid = hasSettingsRow d uid ∨
      hasSettingsRow (import_settings_unit uid p t d) uid = true := by
    intro d
    unfold import_settings_unit
    cases p.settings with
    | none => exact Or.inl rfl
    | some j => exact Or.inr (hasSettingsRow_upsert d uid j t)
  have hue : hasUserRow (ensure_user_exists db uid t) uid = true := by
    unfold hasUserRow; rw [findUser_ensure]; rfl
  have hse : hasSettingsRow (ensure_user_exists db uid t) uid = true := by
    unfold hasSettingsRow; rw [findSettings_ensure]; rfl
  constructor
  · have hcu : hasUserRow (import_chat_unit uid p r t (import_settings_unit uid p t (ensure_user_exists db uid t))) uid
        = hasUserRow (import_settings_unit uid p t (ensure_user_exists db uid t)) uid := by
      unfold hasUserRow findUser
      rw [import_chat_unit_users]
    rw [hcu]
    rcases hu2 (ensure_user_exists db uid t) with h | h
    · rw [h]; exact hue
    · exact h
  · have hcs : hasSettingsRow (import_chat_unit uid p r t (import_settings_unit uid p t (ensure_user_exists db uid t))) uid
        = hasSettingsRow (import_settings_unit uid p t (ensure_user_exists db uid t)) uid := by
      unfold hasSettingsRow findSettings
      rw [import_chat_unit_settings]
    rw [hcs]
    rcases hs2 (ensure_user_exists db uid t) with h | h
    · rw [h]; exact hse
    · exact h

/-- Once a user is provisioned, further provisioning passes change
nothing. -/
theorem ensureN_fixed (uid : String) :
    ∀ (ts : List String) (db : DB) (t : String),
      ensureN (ensure_user_exists db uid t) uid ts = ensure_user_exists db uid t := by
  intro ts
  induction ts with
  | nil => intro db t; rfl
  | cons t2 ts ih =>
    intro db t
    show ensureN (ensure_user_exists (ensure_user_exists db uid t) uid t2) uid ts
        = ensure_user_exists db uid t
    rw [ensure_ensure]
    exact ih db t

/-- The chat table after a replace-import: the user's prior rows removed,
the imported rows appended with fresh increasing ids. -/
theorem import_chat_table_replace (db : DB) (uid t : String)
    (os : Option SettingsUpdate) (msgs : List ChatImportMsg) :
    (import_user_data db uid ⟨os, some msgs⟩ true t).chat
      = db.chat.filter (fun c => !(c.user_id == uid)) ++ importedRows uid t db.nextId msgs := by
  rw [import_user_data_eq]
  have hchat : (import_settings_unit uid ⟨os, some msgs⟩ t (ensure_user_exists db uid t)).chat
      = db.chat := by
    rw [import_settings_unit_chat, ensure_chat]
  have hnext : (import_settings_unit uid ⟨os, some msgs⟩ t (ensure_user_exists db uid t)).nextId
      = db.nextId := by
    rw [import_settings_unit_nextId, ensure_nextId]
  have hstep : import_chat_unit uid ⟨os, some msgs⟩ true t
        (import_settings_unit uid ⟨os, some msgs⟩ t (ensure_user_exists db uid t))
      = insertImportedMsgs uid t
          { import_settings_unit uid ⟨os, some msgs⟩ t (ensure_user_exists db uid t) with
            chat := (import_settings_unit uid ⟨os, some msgs⟩ t
              (ensure_user_exists db uid t)).chat.filter (fun c => !(c.user_id == uid)) } msgs := rfl
  rw [hstep]
  obtain ⟨h1, -, -⟩ := insertImportedMsgs_spec uid t msgs
    { import_settings_unit uid ⟨os, some msgs⟩ t (ensure_user_exists db uid t) with
      chat := (import_settings_unit uid ⟨os, some msgs⟩ t
        (ensure_user_exists db uid t)).chat.filter (fun c => !(c.user_id == uid)) }
  rw [h1]
  show (import_settings_unit uid ⟨os, some msgs⟩ t
        (ensure_user_exists db uid t)).chat.filter (fun c => !(c.user_id == uid))
      ++ importedRows uid t (import_settings_unit uid ⟨os, some msgs⟩ t
        (ensure_user_exists db uid t)).nextId msgs = _
  rw [hchat, hnext]

/-- The chat table after a merge-import: the imported rows appended after
every existing row, nothing removed. -/
theorem import_chat_table_append (db : DB) (uid t : String)
    (os : Option SettingsUpdate) (msgs : List ChatImportMsg) :
    (import_user_data db uid ⟨os, some msgs⟩ false t).chat
      = db.chat ++ importedRows uid t db.nextId msgs := by
  rw [import_user_data_eq]
  have hchat : (import_settings_unit uid ⟨os, some msgs⟩ t (ensure_user_exists db uid t)).chat
      = db.chat := by
    rw [import_settings_unit_chat, ensure_chat]
  have hnext : (import_settings_unit uid ⟨os, some msgs⟩ t (ensure_user_exists db uid t)).nextId
      = db.nextId := by
    rw [import_settings_unit_nextId, ensure_nextId]
  have hstep : import_chat_unit uid ⟨os, some msgs⟩ false t
        (import_settings_unit uid ⟨os, some msgs⟩ t (ensure_user_exists db uid t))
      = insertImportedMsgs uid t
          (import_settings_unit uid ⟨os, some msgs⟩ t (ensure_user_exists db uid t)) msgs := rfl
  rw [hstep]
  obtain ⟨h1, -, -⟩ := insertImportedMsgs_spec uid t msgs
    (import_settings_unit uid ⟨os, some msgs⟩ t (ensure_user_exists db uid t))
  rw [h1, hchat, hnext]

/-- Filtering for a user after filtering the user away yields nothing. -/
theorem filter_not_filter (l : List ChatRow) (uid : String) :
    (l.filter (fun c => !(c.user_id == uid))).filter (fun c => c.user_id == uid) = [] := by
  induction l with
  | nil => rfl
  | cons c cs ih =>
    by_cases h : (c.user_id == uid) = true
    · simp [List.filter_cons, h, ih]
    · have h2 : (c.user_id == uid) = false := by simpa using h
      simp [List.filter_cons, h2, ih]

/-- Under the reachability invariant, the export is the user's rows in table
order, projected to the exported columns. -/
theorem export_of_sorted (db : DB) (uid : String)
    (h : db.chat.Pairwise (fun a b => a.id < b.id)) :
    export_chat_history db uid
      = (db.chat.filter (fun c => c.user_id == uid)).map
          (fun c => (⟨c.role, c.message, c.created_at⟩ : ExportedMsg)) := by
  unfold export_chat_history
  rw [sortById_sorted _ (h.filter _)]

/-! ## Claims -/

/-- C1: for every user whose Settings (and User) row exists and every
partial-field update passed to `upsert_settings`, each recognized settings or
profile field whose key is absent from the update keeps exactly its prior
stored value after the call; only the fields present in the update, plus
`updated_at`, may change (the key columns and `created_at` never change). -/
theorem C1_upsert_preserves_absent_fields (db : DB) (uid t : String) (j : SettingsUpdate)
    (s : SettingsRow) (u : UserRow)
    (hs : findSettings db uid = some s) (hu : findUser db uid = some u) :
    (j.theme_mode = none →
      (findSettings (upsert_settings db uid j t) uid).map (fun r => r.theme_mode) = some s.theme_mode) ∧
    (j.dark_mode = none →
      (findSettings (upsert_settings db uid j t) uid).map (fun r => r.dark_mode) = some s.dark_mode) ∧
    (j.notifications_enabled = none →
      (findSettings (upsert_settings db uid j t) uid).map (fun r => r.notifications_enabled)
        = some s.notifications_enabled) ∧
    (j.chat_notifications = none →
      (findSettings (upsert_settings db uid j t) uid).map (fun r => r.chat_notifications)
        = some s.chat_notifications) ∧
    (j.update_notifications = none →
      (findSettings (upsert_settings db uid j t) uid).map (fun r => r.update_notifications)
        = some s.update_notifications) ∧
    (j.reminder_notifications = none →
      (findSettings (upsert_settings db uid j t) uid).map (fun r => r.reminder_notifications)
        = some s.reminder_notifications) ∧
    (j.language = none →
      (findSettings (upsert_settings db uid j t) uid).map (fun r => r.language) = some s.language) ∧
    (j.biometric_lock = none →
      (findSettings (upsert_settings db uid j t) uid).map (fun r => r.biometric_lock)
        = some s.biometric_lock) ∧
    (j.app_version = none →
      (findSettings (upsert_settings db uid j t) uid).map (fun r => r.app_version)
        = some s.app_version) ∧
    ((findSettings (upsert_settings db uid j t) uid).map (fun r => r.updated_at) = some t) ∧
    ((findSettings (upsert_settings db uid j t) uid).map (fun r => r.user_id) = some s.user_id) ∧
    (j.name = none →
      (findUser (upsert_settings db uid j t) uid).map (fun r => r.name) = some u.name) ∧
    (j.email = none →
      (findUser (upsert_settings db uid j t) uid).map (fun r => r.email) = some u.email) ∧
    (j.avatar_url = none →
      (findUser (upsert_settings db uid j t) uid).map (fun r => r.avatar_url) = some u.avatar_url) ∧
    ((findUser (upsert_settings db uid j t) uid).map (fun r => r.created_at) = some u.created_at) ∧
    ((findUser (upsert_settings db uid j t) uid).map (fun r => r.user_id) = some u.user_id) := by
  have HS : findSettings (upsert_settings db uid j t) uid = some (applySettingsRow j t s) := by
    rw [findSettings_upsert, hs]; rfl
  have HU : findUser (upsert_settings db uid j t) uid
      = some (if j.name.isSome || j.email.isSome || j.avatar_url.isSome
              then applyProfileRow j u else u) := by
    rw [findUser_upsert, hu]; rfl
  refine ⟨?_, ?_, ?_, ?_, ?_, ?_, ?_, ?_, ?_, ?_, ?_, ?_, ?_, ?_, ?_, ?_⟩
  · intro h; rw [HS]; simp [applySettingsRow, h, boundText_none]
  · intro h; rw [HS]; simp [applySettingsRow, h, boundBool_none]
  · intro h; rw [HS]; simp [applySettingsRow, h, boundBool_none]
  · intro h; rw [HS]; simp [applySettingsRow, h, boundBool_none]
  · intro h; rw [HS]; simp [applySettingsRow, h, boundBool_none]
  · intro h; rw [HS]; simp [applySettingsRow, h, boundBool_none]
  · intro h; rw [HS]; simp [applySettingsRow, h, boundText_none]
  · intro h; rw [HS]; simp [applySettingsRow, h, boundBool_none]
  · intro h; rw [HS]; simp [applySettingsRow, h, boundText_none]
  · rw [HS]; simp [applySettingsRow]
  · rw [HS]; simp [applySettingsRow]
  · intro h; rw [HU]
    by_cases hg : (j.name.isSome || j.email.isSome || j.avatar_url.isSome) = true
    · rw [if_pos hg]; simp [applyProfileRow, h]
    · rw [if_neg hg]; rfl
  · intro h; rw [HU]
    by_cases hg : (j.name.isSome || j.email.isSome || j.avatar_url.isSome) = true
    · rw [if_pos hg]; simp [applyProfileRow, h]
    · rw [if_neg hg]; rfl
  · intro h; rw [HU]
    by_cases hg : (j.name.isSome || j.email.isSome || j.avatar_url.isSome) = true
    · rw [if_pos hg]; simp [applyProfileRow, h]
    · rw [if_neg hg]; rfl
  · rw [HU]
    by_cases hg : (j.name.isSome || j.email.isSome || j.avatar_url.isSome) = true
    · rw [if_pos hg]; simp [applyProfileRow]
    · rw [if_neg hg]; rfl
  · rw [HU]
    by_cases hg : (j.name.isSome || j.email.isSome || j.avatar_url.isSome) = true
    · rw [if_pos hg]; simp [applyProfileRow]
    · rw [if_neg hg]; rfl

/-- Witness for C1: with `language = "French"` stored, an update carrying
only `dark_mode` leaves the language at `"French"`. -/
theorem C1_upsert_preserves_absent_fields_witness :
    findSettings dbFrench "u" = some sFrench ∧ findUser dbFrench "u" = some uRow ∧
    (findSettings (upsert_settings dbFrench "u"
        { emptyUpdate with dark_mode := some true } "t1") "u").map (fun r => r.language)
      = some "French" := by
  refine ⟨by decide, by decide, ?_⟩
  have h := C1_upsert_preserves_absent_fields dbFrench "u" "t1"
    { emptyUpdate with dark_mode := some true } sFrench uRow (by decide) (by decide)
  exact h.2.2.2.2.2.2.1 rfl

/-- C2 evaluation: with `language = "French"` stored, an update explicitly
carrying `language = ""` leaves `"French"` stored — the code conflates the
explicit empty string with an absent key, contrary to the claim that the
empty string is stored as the new value. -/
theorem C2_empty_string_update_is_dropped :
    (findSettings (upsert_settings dbFrench "u"
        { emptyUpdate with language := some "" } "t1") "u").map (fun r => r.language)
      = some "French" ∧
    some "French" ≠ some ("" : String) := by
  constructor
  · rw [findSettings_upsert]; decide
  · decide

/-- C3: every boolean settings field explicitly supplied as `false` is stored
as `false` after `upsert_settings`, whatever the prior stored value: the
explicit `false` is bound as the int `0`, distinct from the `-1` absent
sentinel, so `COALESCE` stores it. -/
theorem C3_explicit_false_is_stored (db : DB) (uid t : String) (j : SettingsUpdate) :
    ((findSettings (upsert_settings db uid { j with dark_mode := some false } t) uid).map
        (fun r => r.dark_mode) = some false) ∧
    ((findSettings (upsert_settings db uid { j with notifications_enabled := some false } t) uid).map
        (fun r => r.notifications_enabled) = some false) ∧
    ((findSettings (upsert_settings db uid { j with chat_notifications := some false } t) uid).map
        (fun r => r.chat_notifications) = some false) ∧
    ((findSettings (upsert_settings db uid { j with update_notifications := some false } t) uid).map
        (fun r => r.update_notifications) = some false) ∧
    ((findSettings (upsert_settings db uid { j with reminder_notifications := some false } t) uid).map
        (fun r => r.reminder_notifications) = some false) ∧
    ((findSettings (upsert_settings db uid { j with biometric_lock := some false } t) uid).map
        (fun r => r.biometric_lock) = some false) := by
  refine ⟨?_, ?_, ?_, ?_, ?_, ?_⟩ <;>
    (rw [findSettings_upsert]; simp [applySettingsRow, boundBool_some])

/-- C4 evaluation: importing a payload that carries both a settings merge
(language French) and one chat message, with a storage failure after the
first two committed units (provisioning and the nested `upsert_settings`
call, which commits on its own connection) and before the import's own
transaction commits: the post-failure state shows the settings change
(language is `"French"`, no longer `"English"`) while no chat message was
inserted — the settings merge and the chat insertions are not one atomic
unit. -/
theorem C4_settings_merge_commits_separately :
    (import_user_data_crash dbEnglish "u" payloadFC true "t1" 2).settings.map
        (fun s => s.language) = ["French"] ∧
    (import_user_data_crash dbEnglish "u" payloadFC true "t1" 2).chat = [] ∧
    dbEnglish.settings.map (fun s => s.language) = ["English"] ∧
    payloadFC.chat_history = some [msgC] := by
  refine ⟨?_, ?_, ?_, ?_⟩ <;> decide

/-- C5: provisioning is idempotent and leaves pre-existing rows untouched:
when both rows of the user exist, `ensure_user_exists` is the identity, and
for any database, running it once per timestamp of a non-empty list yields
exactly the state after the first run. -/
theorem C5_provisioning_idempotent (db db2 : DB) (uid t t2 : String) (rest : List String)
    (hu : hasUserRow db uid = true) (hs : hasSettingsRow db uid = true) :
    ensure_user_exists db uid t = db ∧
    ensureN db2 uid (t2 :: rest) = ensure_user_exists db2 uid t2 := by
  refine ⟨ensure_of_exists db uid t hu hs, ?_⟩
  show ensureN (ensure_user_exists db2 uid t2) uid rest = ensure_user_exists db2 uid t2
  exact ensureN_fixed uid rest db2 t2

/-- Witness for C5: the provisioned user is untouched by a further call, and
provisioning a fresh database three times equals provisioning it once. -/
theorem C5_provisioning_idempotent_witness :
    hasUserRow dbFrench "u" = true ∧ hasSettingsRow dbFrench "u" = true ∧
    (ensure_user_exists dbFrench "u" "t1" = dbFrench ∧
     ensureN dbEmpty "u" ["t1", "t2", "t3"] = ensure_user_exists dbEmpty "u" "t1") :=
  ⟨by decide, by decide,
    C5_provisioning_idempotent dbFrench dbEmpty "u" "t1" "t1" ["t2", "t3"]
      (by decide) (by decide)⟩

/-- C6: importing a payload with a `chat_history` list: with `replace` the
user's existing rows are deleted first and the payload's messages inserted in
order, so the export afterwards is exactly the imported list (with the
documented defaults applied); without `replace` the messages are appended
after every existing row, nothing is deleted, and the export afterwards is
the prior export followed by the imported list. -/
theorem C6_import_replace_and_append (db : DB) (uid t : String)
    (os : Option SettingsUpdate) (msgs : List ChatImportMsg) (hwf : DB.chatWF db) :
    ((import_user_data db uid ⟨os, some msgs⟩ true t).chat
        = db.chat.filter (fun c => !(c.user_id == uid)) ++ importedRows uid t db.nextId msgs) ∧
    (export_chat_history (import_user_data db uid ⟨os, some msgs⟩ true t) uid
        = importedExports t msgs) ∧
    ((import_user_data db uid ⟨os, some msgs⟩ false t).chat
        = db.chat ++ importedRows uid t db.nextId msgs) ∧
    (export_chat_history (import_user_data db uid ⟨os, some msgs⟩ false t) uid
        = export_chat_history db uid ++ importedExports t msgs) := by
  refine ⟨import_chat_table_replace db uid t os msgs, ?_, import_chat_table_append db uid t os msgs, ?_⟩
  · unfold export_chat_history
    rw [import_chat_table_replace, List.filter_append, filter_not_filter,
      importedRows_filter, List.nil_append,
      sortById_sorted _ (importedRows_pairwise uid t msgs db.nextId),
      importedRows_project]
  · unfold export_chat_history
    rw [import_chat_table_append, List.filter_append, importedRows_filter]
    have hconc : ((db.chat.filter (fun c => c.user_id == uid))
          ++ importedRows uid t db.nextId msgs).Pairwise (fun a b => a.id < b.id) := by
      rw [List.pairwise_append]
      refine ⟨hwf.1.filter _, importedRows_pairwise uid t msgs db.nextId, ?_⟩
      intro a ha b hb
      exact Nat.lt_of_lt_of_le (hwf.2 a (List.mem_filter.mp ha).1)
        (importedRows_id_ge uid t msgs db.nextId b hb)
    rw [sortById_sorted _ hconc, List.map_append, importedRows_project,
      sortById_sorted _ (hwf.1.filter _)]

/-- Witness for C6: with existing messages A and B, a replace-import of C
exports exactly C, and a merge-import of C exports A, B, C. -/
theorem C6_import_replace_and_append_witness :
    DB.chatWF dbChat ∧
    (export_chat_history (import_user_data dbChat "u" ⟨none, some [msgC]⟩ true "t1") "u"
        = importedExports "t1" [msgC] ∧
     export_chat_history (import_user_data dbChat "u" ⟨none, some [msgC]⟩ false "t1") "u"
        = export_chat_history dbChat "u" ++ importedExports "t1" [msgC]) := by
  have hwf : DB.chatWF dbChat := by
    constructor
    · decide
    · decide
  have h := C6_import_replace_and_append dbChat "u" "t1" none [msgC] hwf
  exact ⟨hwf, h.2.1, h.2.2.2⟩

/-- C7 counterexample: `set_theme` with the empty-string theme value does not
store the given value as `theme_mode` — the stored value stays `"System"`
(the empty string binds NULL and `COALESCE` keeps the prior value), while
`dark_mode` is still set to `false`. -/
theorem C7_set_theme_empty_counterexample :
    (findSettings (set_theme dbFrench "u" "" "t1") "u").map (fun r => r.theme_mode)
        = some "System" ∧
    ("System" : String) ≠ "" ∧
    (findSettings (set_theme dbFrench "u" "" "t1") "u").map (fun r => r.dark_mode)
        = some false := by
  refine ⟨?_, ?_, ?_⟩ <;> decide

/-- C7 amended: for every non-empty theme value, `set_theme` stores the value
as `theme_mode` and sets `dark_mode` exactly when the value equals `"Dark"`;
for the empty-string value, `theme_mode` keeps its prior stored value and
`dark_mode` is set to `false`. -/
theorem C7_set_theme_derivation (db db2 : DB) (uid mode t t2 : String) (s2 : SettingsRow)
    (hm : mode ≠ "") (h2 : findSettings db2 uid = some s2) :
    ((findSettings (set_theme db uid mode t) uid).map (fun r => r.theme_mode) = some mode) ∧
    ((findSettings (set_theme db uid mode t) uid).map (fun r => r.dark_mode)
        = some (mode == "Dark")) ∧
    ((findSettings (set_theme db2 uid "" t2) uid).map (fun r => r.theme_mode)
        = some s2.theme_mode) ∧
    ((findSettings (set_theme db2 uid "" t2) uid).map (fun r => r.dark_mode) = some false) := by
  have hdark : (("" : String) == "Dark") = false := by decide
  refine ⟨?_, ?_, ?_, ?_⟩
  · unfold set_theme
    rw [findSettings_upsert]
    simp [applySettingsRow, boundText_some mode hm]
  · unfold set_theme
    rw [findSettings_upsert]
    simp [applySettingsRow, boundBool_some]
  · unfold set_theme
    rw [findSettings_upsert, h2]
    simp [applySettingsRow, boundText_empty]
  · unfold set_theme
    rw [findSettings_upsert, h2]
    simp [applySettingsRow, boundBool_some, hdark]

/-- Witness for C7 amended: `set_theme` with `"Dark"` stores `"Dark"` and
sets `dark_mode`; with `"Light"` it clears `dark_mode`. -/
theorem C7_set_theme_derivation_witness :
    ("Dark" : String) ≠ "" ∧ ("Light" : String) ≠ "" ∧
    findSettings dbFrench "u" = some sFrench ∧
    ((findSettings (set_theme dbEnglish "u" "Dark" "t1") "u").map (fun r => r.theme_mode)
        = some "Dark") ∧
    ((findSettings (set_theme dbEnglish "u" "Dark" "t1") "u").map (fun r => r.dark_mode)
        = some ("Dark" == "Dark")) ∧
    ((findSettings (set_theme dbEnglish "u" "Light" "t1") "u").map (fun r => r.dark_mode)
        = some ("Light" == "Dark")) := by
  refine ⟨by decide, by decide, by decide, ?_, ?_, ?_⟩
  · exact (C7_set_theme_derivation dbEnglish dbFrench "u" "Dark" "t1" "t2" sFrench
      (by decide) (by decide)).1
  · exact (C7_set_theme_derivation dbEnglish dbFrench "u" "Dark" "t1" "t2" sFrench
      (by decide) (by decide)).2.1
  · exact (C7_set_theme_derivation dbEnglish dbFrench "u" "Light" "t1" "t2" sFrench
      (by decide) (by decide)).2.1

/-- C8 counterexample: a prepared-statement failure during `upsert_settings`
(or `append_chat_message`) does not surface as an unsuccessful result — the
statement is skipped because its body is guarded by the prepare result, every
bind/step return code is discarded, and the function still returns `true`. -/
theorem C8_prepare_failure_reports_success :
    (StorageEnv.mk false true).stmtFails = true ∧
    (upsert_settings_env ⟨false, true⟩ dbFrench "u" emptyUpdate "t1").2 = true ∧
    (append_chat_message_env ⟨false, true⟩ dbFrench "u" "user" "hi" "t1").2 = true := by
  refine ⟨rfl, rfl, rfl⟩

/-- C8 amended: only a storage-open failure surfaces to the caller as an
unsuccessful result for the four write operations; a prepared-statement (or
bind) failure is silently ignored — the statements are skipped, the stored
state is unchanged, and the operation still reports success. -/
theorem C8_only_open_failure_surfaces (env1 env2 : StorageEnv) (db : DB)
    (uid role message t : String) (j : SettingsUpdate) (p : ImportPayload) (r : Bool)
    (h1 : env1.openFails = true) (h2 : env2.openFails = false) (h3 : env2.stmtFails = true) :
    ((upsert_settings_env env1 db uid j t).2 = false) ∧
    ((append_chat_message_env env1 db uid role message t).2 = false) ∧
    ((clear_chat_history_env env1 db uid).2 = false) ∧
    ((import_user_data_env env1 db uid p r t).2 = false) ∧
    ((upsert_settings_env env1 db uid j t).1 = db) ∧
    ((upsert_settings_env env2 db uid j t).2 = true) ∧
    ((append_chat_message_env env2 db uid role message t).2 = true) ∧
    ((clear_chat_history_env env2 db uid).2 = true) ∧
    ((import_user_data_env env2 db uid p r t).2 = true) ∧
    ((upsert_settings_env env2 db uid j t).1 = db) := by
  unfold upsert_settings_env append_chat_message_env clear_chat_history_env import_user_data_env
  rw [h1, h2, h3]
  simp

/-- Witness for C8 amended: concrete environments, one with a failing open,
one with failing statement preparation. -/
theorem C8_only_open_failure_surfaces_witness :
    (StorageEnv.mk true false).openFails = true ∧
    (StorageEnv.mk false true).openFails = false ∧
    (StorageEnv.mk false true).stmtFails = true ∧
    ((upsert_settings_env ⟨true, false⟩ dbFrench "u" emptyUpdate "t1").2 = false ∧
     (clear_chat_history_env ⟨false, true⟩ dbFrench "u").2 = true) := by
  refine ⟨rfl, rfl, rfl, ?_, ?_⟩
  · exact (C8_only_open_failure_surfaces ⟨true, false⟩ ⟨false, true⟩ dbFrench
      "u" "user" "hi" "t1" emptyUpdate ⟨none, none⟩ false rfl rfl rfl).1
  · exact (C8_only_open_failure_surfaces ⟨true, false⟩ ⟨false, true⟩ dbFrench
      "u" "user" "hi" "t1" emptyUpdate ⟨none, none⟩ false rfl rfl rfl).2.2.2.2.2.2.2.1

/-- C10: `clear_chat_history` does not provision.  For a user with no rows at
all it is the identity; for any database it leaves the users and settings
tables untouched; and each of the other three write operations does create
the User and Settings rows of the user (they run `ensure_user_exists`
first), while `clear_chat_history` leaves the user absent. -/
theorem C10_clear_does_not_provision (db dbX : DB) (uid t role message : String)
    (j : SettingsUpdate) (p : ImportPayload) (r : Bool)
    (hu : db.users.all (fun u2 => !(u2.user_id == uid)) = true)
    (hs : db.settings.all (fun s2 => !(s2.user_id == uid)) = true)
    (hc : db.chat.all (fun c => !(c.user_id == uid)) = true) :
    clear_chat_history db uid = db ∧
    (clear_chat_history dbX uid).users = dbX.users ∧
    (clear_chat_history dbX uid).settings = dbX.settings ∧
    hasUserRow db uid = false ∧
    hasSettingsRow db uid = false ∧
    hasUserRow (clear_chat_history db uid) uid = false ∧
    hasUserRow (upsert_settings db uid j t) uid = true ∧
    hasSettingsRow (upsert_settings db uid j t) uid = true ∧
    hasUserRow (append_chat_message db uid role message t) uid = true ∧
    hasSettingsRow (append_chat_message db uid role message t) uid = true ∧
    hasUserRow (import_user_data db uid p r t) uid = true ∧
    hasSettingsRow (import_user_data db uid p r t) uid = true := by
  have hufalse : hasUserRow db uid = false := by
    unfold hasUserRow findUser
    rw [List.find?_eq_none.mpr]
    · rfl
    · intro x hx hpx
      have := List.all_eq_true.mp hu x hx
      rw [hpx] at this
      simp at this
  have hsfalse : hasSettingsRow db uid = false := by
    unfold hasSettingsRow findSettings
    rw [List.find?_eq_none.mpr]
    · rfl
    · intro x hx hpx
      have := List.all_eq_true.mp hs x hx
      rw [hpx] at this
      simp at this
  have hclear : clear_chat_history db uid = db := by
    unfold clear_chat_history
    rw [List.filter_eq_self.mpr (List.all_eq_true.mp hc)]
  refine ⟨hclear, rfl, rfl, hufalse, hsfalse, ?_, hasUserRow_upsert db uid j t,
    hasSettingsRow_upsert db uid j t, ?_, ?_,
    (hasRows_import db uid p r t).1, (hasRows_import db uid p r t).2⟩
  · rw [hclear]; exact hufalse
  · unfold hasUserRow
    rw [findUser_append_chat, findUser_ensure]
    rfl
  · unfold hasSettingsRow
    rw [findSettings_append_chat, findSettings_ensure]
    rfl

/-- Witness for C10: an empty database has no rows of the user, clearing it
changes nothing, and an upsert on it does create the user. -/
theorem C10_clear_does_not_provision_witness :
    dbEmpty.users.all (fun u2 => !(u2.user_id == "u")) = true ∧
    dbEmpty.settings.all (fun s2 => !(s2.user_id == "u")) = true ∧
    dbEmpty.chat.all (fun c => !(c.user_id == "u")) = true ∧
    (clear_chat_history dbEmpty "u" = dbEmpty ∧
     hasUserRow (clear_chat_history dbEmpty "u") "u" = false ∧
     hasUserRow (upsert_settings dbEmpty "u" emptyUpdate "t1") "u" = true) := by
  refine ⟨by decide, by decide, by decide, ?_⟩
  have h := C10_clear_does_not_provision dbEmpty dbChat "u" "t1" "user" "hi"
    emptyUpdate ⟨none, none⟩ false (by decide) (by decide) (by decide)
  exact ⟨h.1, h.2.2.2.2.2.1, h.2.2.2.2.2.2.1⟩

end SettingsServer

